import Mathlib

/- Verification development for the ESP8266 educational firmware
   (src/cpp/ParticularMatter_public.cpp). The C++ code is shallowly
   embedded: machine integers are Nat with explicit wraparound where the
   code relies on it, C strings are lists of byte values holding the
   contents up to the first terminator, the EEPROM image is a
   configuration record, and the sensor byte stream is a list of bytes
   (a read timeout corresponds to exhausting the list). -/

/-- Modulus of 32 bit unsigned arithmetic (uint32_t). -/
def U32 : Nat := 4294967296

/-- Wrapping subtraction of uint32 values, as in the expression
now - lastAttempt over millis timestamps. -/
def u32sub (a b : Nat) : Nat := (a % U32 + U32 - b % U32) % U32

/-- MAX_LEN from the source: capacity of most text fields (63 + terminator). -/
def MAX_LEN : Nat := 64

/-- UUID_LEN from the source: capacity of uuid text fields (36 + terminator). -/
def UUID_LEN : Nat := 37

/-- CONFIG_MAGIC. The source literal 0xEDUC0DE1 is not valid hexadecimal
(the letter U is not a hex digit), so the exact value is a placeholder
here as well; no theorem depends on the value, only on it being a fixed
constant. -/
def CONFIG_MAGIC : Nat := 0xEDC0DE1

/-- The persisted configuration record (struct ESPConfig). Text fields
hold the bytes stored before the terminator. -/
structure ESPConfig where
  magic : Nat
  wifi_ssid : List Nat
  wifi_pass : List Nat
  user_email : List Nat
  device_name : List Nat
  one_time_key : List Nat
  node_id : List Nat
  mqtt_host : List Nat
  mqtt_port : Nat
  mqtt_username : List Nat
  mqtt_password : List Nat
  first_sensor_id : List Nat
  first_sensor_sn : List Nat
  registration_ok : Nat
deriving DecidableEq

/-- The all-zero record produced by memset(&config, 0, sizeof(config)). -/
def zeroConfig : ESPConfig :=
  { magic := 0, wifi_ssid := [], wifi_pass := [], user_email := [],
    device_name := [], one_time_key := [], node_id := [], mqtt_host := [],
    mqtt_port := 0, mqtt_username := [], mqtt_password := [],
    first_sensor_id := [], first_sensor_sn := [], registration_ok := 0 }

/-- The zeroed record with the magic tag applied, as built by loadConfig
on a magic mismatch. -/
def freshConfig : ESPConfig := { zeroConfig with magic := CONFIG_MAGIC }

/-- Number of source bytes kept by copyString: n = src.length, clamped
to dstSize - 1 when n >= dstSize. -/
def cs_count (srcLen dstSize : Nat) : Nat :=
  if dstSize ≤ srcLen then dstSize - 1 else srcLen

/-- copyString at the byte level: the dst buffer after memcpy of the
kept bytes and writing the terminator; bytes past the terminator keep
their previous contents. -/
def copyString (src dst : List Nat) : List Nat :=
  src.take (cs_count src.length dst.length)
    ++ 0 :: dst.drop (cs_count src.length dst.length + 1)

/-- The buffer indices copyString writes: 0 .. n-1 by memcpy, then
index n for the terminator. -/
def copyStringWrites (srcLen dstSize : Nat) : List Nat :=
  List.range (cs_count srcLen dstSize) ++ cs_count srcLen dstSize :: []

/-- Checks that every index in a list of write positions stays below
the buffer capacity. -/
def writesInBounds : List Nat → Nat → Bool
  | [], _ => true
  | i :: rest, m => decide (i < m) && writesInBounds rest m

/-- Logical contents of a text field after copyString into a field of
the given capacity: the input truncated to capacity - 1 bytes. -/
def copyField (src : List Nat) (cap : Nat) : List Nat := src.take (cap - 1)

/-- haveMqttCreds from the source. -/
def haveMqttCreds (c : ESPConfig) : Bool :=
  c.registration_ok == 1 && !c.node_id.isEmpty && !c.mqtt_host.isEmpty &&
    c.mqtt_port != 0 && !c.mqtt_username.isEmpty && !c.mqtt_password.isEmpty

/-- saveConfig: sets the magic tag, then writes the record; the returned
record is both the in-memory value and the image written to EEPROM. -/
def saveConfig (c : ESPConfig) : ESPConfig := { c with magic := CONFIG_MAGIC }

/-- loadConfig: reads the persisted image; on magic mismatch replaces it
by the zeroed record with the magic tag and persists that. Result:
(in-memory record, persisted image afterwards, whether a write happened). -/
def loadConfig (sto : ESPConfig) : ESPConfig × ESPConfig × Bool :=
  if sto.magic ≠ CONFIG_MAGIC then (freshConfig, freshConfig, true)
  else (sto, sto, false)

/-- clearConfig: memset the record to zero and persist it (the magic tag
is not re-applied by this function). Result: (in-memory, persisted). -/
def clearConfig : ESPConfig × ESPConfig := (zeroConfig, zeroConfig)

/-- handleClear route: clearConfig followed by loadConfig. Result:
(in-memory record, persisted image). -/
def handleClear (_mem _sto : ESPConfig) : ESPConfig × ESPConfig :=
  let p := clearConfig
  let l := loadConfig p.2
  (l.1, l.2.1)

/-- Observable events of the provisioning flow: a write of a full record
to EEPROM, and the start of a registration attempt. -/
inductive Ev where
  | persist : ESPConfig → Ev
  | regAttempt : Ev
deriving DecidableEq

/-- Stub registration payload string. -/
def stubNodeId : String := "00000000-0000-0000-0000-000000000001"

/-- Stub registration payload string. -/
def stubMqttHost : String := "mqtt.example.local"

/-- Stub registration payload string. -/
def stubMqttUser : String := "demo-user"

/-- Stub registration payload string. -/
def stubMqttPass : String := "demo-pass"

/-- Stub registration payload string. -/
def stubSensorId : String := "00000000-0000-0000-0000-00000000SENS"

/-- Stub registration payload string. -/
def stubSensorSn : String := "PMS5003-EDU"

/-- Byte values of a string constant. -/
def strBytes (s : String) : List Nat := s.toList.map Char.toNat

/-- performRegistration in the default (stubbed) build: an empty one
time key aborts at once; otherwise the stub credentials are stored, the
success flag is set and the record saved. Result: (returned Bool, the
record afterwards, persistence events). -/
def performRegistration (cfg : ESPConfig) : Bool × ESPConfig × List Ev :=
  if cfg.one_time_key = [] then (false, cfg, [])
  else
    let c1 := { cfg with
      node_id := copyField (strBytes stubNodeId) UUID_LEN,
      mqtt_host := copyField (strBytes stubMqttHost) MAX_LEN,
      mqtt_port := 1883,
      mqtt_username := copyField (strBytes stubMqttUser) MAX_LEN,
      mqtt_password := copyField (strBytes stubMqttPass) MAX_LEN,
      first_sensor_id := copyField (strBytes stubSensorId) UUID_LEN,
      first_sensor_sn := copyField (strBytes stubSensorSn) MAX_LEN,
      registration_ok := 1 }
    let c2 := saveConfig c1
    (true, c2, Ev.persist c2 :: [])

/-- One form field of the /save request: the stored value is replaced by
the truncated argument when the argument is present. -/
def argField (cur : List Nat) (arg : Option (List Nat)) (cap : Nat) : List Nat :=
  match arg with
  | some s => copyField s cap
  | none => cur

/-- The copyString block of handleSave applied to the five user-entered
fields. -/
def applyFormArgs (cfg : ESPConfig) (ssid pw email nm ke : Option (List Nat)) : ESPConfig :=
  { cfg with
    wifi_ssid := argField cfg.wifi_ssid ssid MAX_LEN,
    wifi_pass := argField cfg.wifi_pass pw MAX_LEN,
    user_email := argField cfg.user_email email MAX_LEN,
    device_name := argField cfg.device_name nm MAX_LEN,
    one_time_key := argField cfg.one_time_key ke MAX_LEN }

/-- The reset block of handleSave: registration-derived fields and the
success flag wiped. -/
def resetDerived (c : ESPConfig) : ESPConfig :=
  { c with
    registration_ok := 0,
    node_id := [],
    mqtt_host := [],
    mqtt_username := [],
    mqtt_password := [],
    mqtt_port := 0,
    first_sensor_id := [],
    first_sensor_sn := [] }

/-- handleSave route: apply form arguments, wipe derived fields, save,
then attempt registration. Result: (record afterwards, event trace in
order). -/
def handleSave (cfg : ESPConfig) (ssid pw email nm ke : Option (List Nat)) :
    ESPConfig × List Ev :=
  let c2 := saveConfig (resetDerived (applyFormArgs cfg ssid pw email nm ke))
  let r := performRegistration c2
  (r.2.1, Ev.persist c2 :: Ev.regAttempt :: r.2.2)

/-- A decoded PMS5003 sample (struct PMSData). -/
structure PMSData where
  pm1_cf1 : Nat
  pm25_cf1 : Nat
  pm10_cf1 : Nat
  pm1_atm : Nat
  pm25_atm : Nat
  pm10_atm : Nat
  ts_ms : Nat
  valid : Bool
deriving DecidableEq

/-- The header scan loop of readPMS5003Frame: state 0 awaits 0x42,
state 1 awaits 0x4D; on a match the rest of the stream is returned.
Running out of bytes models the 200 ms timeout. -/
def seekHeader (st : Nat) : List Nat → Option (List Nat)
  | [] => none
  | b :: rest =>
    if st = 0 ∧ b = 0x42 then seekHeader 1 rest
    else if st = 1 ∧ b = 0x4D then some rest
    else seekHeader 0 rest

/-- wordAt from the source: big-endian 16 bit field number i of the
frame body. -/
def pmsWord (data : List Nat) (i : Nat) : Nat :=
  256 * data.getD (2 * i) 0 + data.getD (2 * i + 1) 0

/-- readPMS5003Frame: seek the header, read the big-endian length, check
its bounds, read the body, verify the 16 bit running-sum checksum and
extract the six fields, stamping the capture time. Too few remaining
bytes model a pmsReadN timeout. -/
def readPMS5003Frame (now : Nat) (stream : List Nat) : Option PMSData :=
  match seekHeader 0 stream with
  | some (l1 :: l2 :: rest2) =>
    let frameLen := 256 * l1 + l2
    if frameLen < 28 ∨ 64 < frameLen then none
    else if 64 < frameLen then none
    else if rest2.length < frameLen then none
    else
      let data := rest2.take frameLen
      let sum := (0x42 + 0x4D + l1 + l2 + (data.take (frameLen - 2)).sum) % 65536
      let chk := 256 * data.getD (frameLen - 2) 0 + data.getD (frameLen - 1) 0
      if sum ≠ chk then none
      else some
        { pm1_cf1 := pmsWord data 0, pm25_cf1 := pmsWord data 1,
          pm10_cf1 := pmsWord data 2, pm1_atm := pmsWord data 3,
          pm25_atm := pmsWord data 4, pm10_atm := pmsWord data 5,
          ts_ms := now, valid := true }
  | _ => none

/-- pollPMS5003: the held sample g_pms is replaced only when a frame
decodes successfully. -/
def pollPMS5003 (g : PMSData) (now : Nat) (stream : List Nat) : PMSData :=
  match readPMS5003Frame now stream with
  | some t => t
  | none => g

/-- State of the station (network join) supervisor: the two globals
lastStaAttempt and staBackoffMs. -/
structure StaState where
  lastStaAttempt : Nat
  staBackoffMs : Nat
deriving DecidableEq

/-- ensureStaConnected: no-op when credentials are missing or the join
is observed connected; otherwise, when the backoff has elapsed, start an
attempt, record its time and grow the backoff by 5000 ms up to 60000 ms.
The attempt result is not observed here and the backoff is never reset
by this function. -/
def ensureStaConnected (now : Nat) (creds connected : Bool) (s : StaState) : StaState :=
  if !creds || connected then s
  else if u32sub now s.lastStaAttempt < s.staBackoffMs then s
  else { lastStaAttempt := now, staBackoffMs := min (s.staBackoffMs + 5000) 60000 }

/-- Whether a call of ensureStaConnected would start an attempt now. -/
def staAttemptDue (now : Nat) (creds connected : Bool) (s : StaState) : Bool :=
  creds && !connected && !(decide (u32sub now s.lastStaAttempt < s.staBackoffMs))

/-- N supervision cycles in which the join never comes up, each taken
60000 ms after the previous attempt so the backoff has always elapsed. -/
def staFailRun : Nat → StaState → StaState
  | 0, s => s
  | n + 1, s => staFailRun n (ensureStaConnected (s.lastStaAttempt + 60000) true false s)

/-- State of the broker supervisor: lastMqttConnAttempt, mqttBackoffMs
and the connected flag of the client. -/
structure MqttConnState where
  lastMqttConnAttempt : Nat
  mqttBackoffMs : Nat
  connected : Bool
deriving DecidableEq

/-- mqttEnsureConnected: no-op without credentials or when connected;
otherwise, when the backoff has elapsed, attempt a connect with the
given outcome: on success the backoff resets to 0, on failure it grows
by 5000 ms up to 60000 ms; the attempt time is recorded either way. -/
def mqttEnsureConnected (now : Nat) (creds result : Bool) (s : MqttConnState) : MqttConnState :=
  if !creds then s
  else if s.connected then s
  else if u32sub now s.lastMqttConnAttempt < s.mqttBackoffMs then s
  else if result then
    { lastMqttConnAttempt := now, mqttBackoffMs := 0, connected := true }
  else
    { lastMqttConnAttempt := now, mqttBackoffMs := min (s.mqttBackoffMs + 5000) 60000,
      connected := false }

/-- Whether a call of mqttEnsureConnected would start an attempt now. -/
def mqttAttemptDue (now : Nat) (creds : Bool) (s : MqttConnState) : Bool :=
  creds && !s.connected && !(decide (u32sub now s.lastMqttConnAttempt < s.mqttBackoffMs))

/-- N supervision cycles whose connect attempts all fail, each taken
60000 ms after the previous attempt so the backoff has always elapsed. -/
def mqttFailRun : Nat → MqttConnState → MqttConnState
  | 0, s => s
  | n + 1, s => mqttFailRun n (mqttEnsureConnected (s.lastMqttConnAttempt + 60000) true false s)

/-- A publish intent: the payload carries the three atmospheric
concentration fields. -/
structure PublishIntent where
  pm1 : Nat
  pm25 : Nat
  pm10 : Nat
deriving DecidableEq

/-- The payload makeMeasurementPayload builds from a sample. -/
def atmOf (p : PMSData) : PublishIntent :=
  { pm1 := p.pm1_atm, pm25 := p.pm25_atm, pm10 := p.pm10_atm }

/-- mqttMaybePublish (networked build): gate on credentials, broker
connection and sample validity, then throttle to one publish per
20000 ms; on publish the static lastMqttPub advances to now. Result:
(emitted intent, lastMqttPub afterwards). -/
def mqttMaybePublish (cfg : ESPConfig) (connected : Bool) (pms : PMSData)
    (now lastPub : Nat) : Option PublishIntent × Nat :=
  if !haveMqttCreds cfg || !connected || !pms.valid then (none, lastPub)
  else if u32sub now lastPub < 20000 then (none, lastPub)
  else (some (atmOf pms), now)

/-- A sequence of mqttMaybePublish calls: each step supplies the loop
time and the currently held sample; emitted intents are collected with
their emission times. -/
def mqttPubRun (cfg : ESPConfig) (connected : Bool) :
    Nat → List (Nat × PMSData) → List (Nat × PublishIntent)
  | _, [] => []
  | lastPub, (t, pms) :: rest =>
    let r := mqttMaybePublish cfg connected pms t lastPub
    match r.1 with
    | some it => (t, it) :: mqttPubRun cfg connected r.2 rest
    | none => mqttPubRun cfg connected r.2 rest

/-- Times of a call sequence are non-decreasing, bounded by the uint32
range, and start no earlier than the given origin. -/
def timesMono : Nat → List (Nat × PMSData) → Bool
  | _, [] => true
  | p, (t, _) :: rest => decide (p ≤ t) && decide (t < U32) && timesMono t rest

/-- Consecutive emissions are at least 20000 ms apart, the first at
least 20000 ms after the origin. -/
def gapped : Nat → List (Nat × PublishIntent) → Bool
  | _, [] => true
  | p, (t, _) :: rest => decide (p + 20000 ≤ t) && gapped t rest

/-- Every entry of the list is a byte value. -/
def allBytes : List Nat → Bool
  | [] => true
  | b :: rest => decide (b < 256) && allBytes rest

/-- Unfolding of the write bound check into the membership statement. -/
theorem writesInBounds_iff (l : List Nat) (m : Nat) :
    writesInBounds l m = true ↔ ∀ i ∈ l, i < m := by
  induction l with
  | nil => simp [writesInBounds]
  | cons a t ih => simp [writesInBounds, ih]

/-- C4: the clear route (clearConfig then loadConfig) leaves both the
in-memory record and the persisted image equal to the record obtained by
zeroing every field and performing save, which re-applies the magic tag;
every field of the result is zero and the magic equals the constant. -/
theorem c4_clear_equiv_zero_save (mem sto : ESPConfig) :
    handleClear mem sto = (saveConfig zeroConfig, saveConfig zeroConfig)
    ∧ (handleClear mem sto).1 = (handleClear mem sto).2
    ∧ (handleClear mem sto).1.magic = CONFIG_MAGIC
    ∧ (handleClear mem sto).1.wifi_ssid = []
    ∧ (handleClear mem sto).1.wifi_pass = []
    ∧ (handleClear mem sto).1.user_email = []
    ∧ (handleClear mem sto).1.device_name = []
    ∧ (handleClear mem sto).1.one_time_key = []
    ∧ (handleClear mem sto).1.node_id = []
    ∧ (handleClear mem sto).1.mqtt_host = []
    ∧ (handleClear mem sto).1.mqtt_port = 0
    ∧ (handleClear mem sto).1.mqtt_username = []
    ∧ (handleClear mem sto).1.mqtt_password = []
    ∧ (handleClear mem sto).1.first_sensor_id = []
    ∧ (handleClear mem sto).1.first_sensor_sn = []
    ∧ (handleClear mem sto).1.registration_ok = 0 := by
  refine ⟨?_, ?_, ?_, ?_, ?_, ?_, ?_, ?_, ?_, ?_, ?_, ?_, ?_, ?_, ?_, ?_⟩ <;>
    simp [handleClear, clearConfig, loadConfig, saveConfig, freshConfig, zeroConfig,
      CONFIG_MAGIC]

/-- C7: whenever a decode attempt fails for any reason, the held sample
is returned unchanged; only a successful decode replaces it. -/
theorem c7_failed_decode_preserves_sample (g : PMSData) (now : Nat) (stream : List Nat)
    (h : readPMS5003Frame now stream = none) :
    pollPMS5003 g now stream = g := by
  simp [pollPMS5003, h]

/-- C7 witness: a frame whose final checksum byte is corrupted decodes
to nothing and the held sample survives every field intact. -/
theorem c7_failed_decode_preserves_sample_witness :
    readPMS5003Frame 0
        ([0x42, 0x4D, 0, 28, 0, 1, 0, 2, 0, 3, 0, 4, 0, 5, 0, 6]
          ++ List.replicate 14 0 ++ [0, 193]) = none
    ∧ pollPMS5003 ⟨11, 12, 13, 14, 15, 16, 17, true⟩ 0
        ([0x42, 0x4D, 0, 28, 0, 1, 0, 2, 0, 3, 0, 4, 0, 5, 0, 6]
          ++ List.replicate 14 0 ++ [0, 193]) = ⟨11, 12, 13, 14, 15, 16, 17, true⟩ :=
  ⟨by decide, c7_failed_decode_preserves_sample ⟨11, 12, 13, 14, 15, 16, 17, true⟩ 0
    ([0x42, 0x4D, 0, 28, 0, 1, 0, 2, 0, 3, 0, 4, 0, 5, 0, 6]
      ++ List.replicate 14 0 ++ [0, 193]) (by decide)⟩

/-- C8: a persisted image with a mismatched magic tag is replaced by the
zeroed record carrying only the tag, that record is persisted, a second
load of the saved image returns it unchanged without writing, and an
image whose tag matches is returned unmodified with no write. -/
theorem c8_load_recovery (sto good : ESPConfig)
    (h1 : sto.magic ≠ CONFIG_MAGIC) (h2 : good.magic = CONFIG_MAGIC) :
    loadConfig sto = (freshConfig, freshConfig, true)
    ∧ (loadConfig sto).1.magic = CONFIG_MAGIC
    ∧ (loadConfig sto).1.wifi_ssid = []
    ∧ (loadConfig sto).1.wifi_pass = []
    ∧ (loadConfig sto).1.user_email = []
    ∧ (loadConfig sto).1.device_name = []
    ∧ (loadConfig sto).1.one_time_key = []
    ∧ (loadConfig sto).1.node_id = []
    ∧ (loadConfig sto).1.mqtt_host = []
    ∧ (loadConfig sto).1.mqtt_port = 0
    ∧ (loadConfig sto).1.mqtt_username = []
    ∧ (loadConfig sto).1.mqtt_password = []
    ∧ (loadConfig sto).1.first_sensor_id = []
    ∧ (loadConfig sto).1.first_sensor_sn = []
    ∧ (loadConfig sto).1.registration_ok = 0
    ∧ loadConfig (loadConfig sto).2.1 = ((loadConfig sto).1, (loadConfig sto).2.1, false)
    ∧ loadConfig good = (good, good, false) := by
  have e : loadConfig sto = (freshConfig, freshConfig, true) := by
    simp [loadConfig, h1]
  have e2 : loadConfig good = (good, good, false) := by
    simp [loadConfig, h2]
  refine ⟨e, ?_, ?_, ?_, ?_, ?_, ?_, ?_, ?_, ?_, ?_, ?_, ?_, ?_, ?_, ?_, e2⟩ <;>
    rw [e] <;> decide

/-- C8 witness: recovery at a concrete corrupted image. -/
theorem c8_load_recovery_witness :
    ({ zeroConfig with magic := 1 } : ESPConfig).magic ≠ CONFIG_MAGIC
    ∧ freshConfig.magic = CONFIG_MAGIC
    ∧ loadConfig { zeroConfig with magic := 1 } = (freshConfig, freshConfig, true)
    ∧ loadConfig freshConfig = (freshConfig, freshConfig, false) := by
  have h := c8_load_recovery { zeroConfig with magic := 1 } freshConfig
    (by decide) (by decide)
  exact ⟨by decide, by decide, h.1, by
    have := h.2.2.2.2.2.2.2.2.2.2.2.2.2.2.2.2
    simpa [h.1] using this⟩

/-- C9: copying an input of length L into a field of capacity M keeps
exactly min(L, M-1) input bytes, appends the terminator right after
them, leaves the rest of the buffer as it was, keeps the buffer length,
and writes no index at or beyond M. -/
theorem c9_copy_truncation (src dst : List Nat) (hM : 1 ≤ dst.length) :
    cs_count src.length dst.length = min src.length (dst.length - 1)
    ∧ (copyString src dst).length = dst.length
    ∧ (copyString src dst).take (cs_count src.length dst.length + 1)
        = src.take (min src.length (dst.length - 1)) ++ 0 :: []
    ∧ (copyString src dst).drop (cs_count src.length dst.length + 1)
        = dst.drop (cs_count src.length dst.length + 1)
    ∧ writesInBounds (copyStringWrites src.length dst.length) dst.length = true := by
  have hn : cs_count src.length dst.length = min src.length (dst.length - 1) := by
    unfold cs_count; split <;> omega
  have hnL : cs_count src.length dst.length ≤ src.length := by omega
  have hnM : cs_count src.length dst.length + 1 ≤ dst.length := by omega
  have hlt : (src.take (cs_count src.length dst.length)).length
      = cs_count src.length dst.length := by
    rw [List.length_take]; omega
  refine ⟨hn, ?_, ?_, ?_, ?_⟩
  · rw [copyString, List.length_append, hlt]
    simp [List.length_drop]
    omega
  · rw [copyString, List.take_append_eq_append_take, hlt]
    rw [List.take_of_length_le (by omega), hn]
    norm_num
  · rw [copyString, List.drop_append_eq_append_drop, hlt]
    rw [List.drop_of_length_le (by omega)]
    norm_num
  · rw [writesInBounds_iff]
    intro i hi
    rcases List.mem_append.mp hi with hr | hr
    · have := List.mem_range.mp hr
      omega
    · have : i = cs_count src.length dst.length := by simpa using hr
      omega

/-- C9 witness: a length four input into a capacity three buffer. -/
theorem c9_copy_truncation_witness :
    1 ≤ ([1, 1, 1] : List Nat).length
    ∧ cs_count ([7, 8, 9, 10] : List Nat).length ([1, 1, 1] : List Nat).length
        = min ([7, 8, 9, 10] : List Nat).length (([1, 1, 1] : List Nat).length - 1)
    ∧ (copyString [7, 8, 9, 10] [1, 1, 1]).length = ([1, 1, 1] : List Nat).length
    ∧ writesInBounds
        (copyStringWrites ([7, 8, 9, 10] : List Nat).length ([1, 1, 1] : List Nat).length)
        ([1, 1, 1] : List Nat).length = true := by
  have h := c9_copy_truncation [7, 8, 9, 10] [1, 1, 1] (by decide)
  exact ⟨by decide, h.1, h.2.1, h.2.2.2.2⟩

/-- C10: with an empty one time key the registration operation fails at
once, leaves the record untouched in every field, and performs no save. -/
theorem c10_empty_key_aborts (cfg : ESPConfig) (h : cfg.one_time_key = []) :
    performRegistration cfg = (false, cfg, []) := by
  simp [performRegistration, h]

/-- C10 witness: a record with stale derived fields but an empty key is
returned unchanged with no persistence event. -/
theorem c10_empty_key_aborts_witness :
    ({ zeroConfig with registration_ok := 1, node_id := [9] } : ESPConfig).one_time_key = []
    ∧ performRegistration { zeroConfig with registration_ok := 1, node_id := [9] }
        = (false, { zeroConfig with registration_ok := 1, node_id := [9] }, []) :=
  ⟨by decide, c10_empty_key_aborts
    { zeroConfig with registration_ok := 1, node_id := [9] } (by decide)⟩

/-- C2: any submission of the five user-entered fields, applied to any
current record, first persists a record that carries the new truncated
user values together with the cleared success flag and emptied derived
fields, and the registration attempt is only issued after that write. -/
theorem c2_submit_resets_derived (cfg : ESPConfig) (s p e nm k : List Nat) :
    ∃ r rest,
      (handleSave cfg (some s) (some p) (some e) (some nm) (some k)).2
        = Ev.persist r :: rest
      ∧ Ev.regAttempt ∈ rest
      ∧ r.registration_ok = 0
      ∧ r.node_id = []
      ∧ r.mqtt_host = []
      ∧ r.mqtt_port = 0
      ∧ r.mqtt_username = []
      ∧ r.mqtt_password = []
      ∧ r.first_sensor_id = []
      ∧ r.first_sensor_sn = []
      ∧ r.wifi_ssid = copyField s MAX_LEN
      ∧ r.wifi_pass = copyField p MAX_LEN
      ∧ r.user_email = copyField e MAX_LEN
      ∧ r.device_name = copyField nm MAX_LEN
      ∧ r.one_time_key = copyField k MAX_LEN := by
  exact ⟨saveConfig (resetDerived
      (applyFormArgs cfg (some s) (some p) (some e) (some nm) (some k))),
    Ev.regAttempt :: (performRegistration (saveConfig (resetDerived
      (applyFormArgs cfg (some s) (some p) (some e) (some nm) (some k))))).2.2,
    rfl, List.mem_cons_self _ _,
    rfl, rfl, rfl, rfl, rfl, rfl, rfl, rfl, rfl, rfl, rfl, rfl, rfl⟩

/-- Soundness of the header scan: a match always consumes through a
consecutive 0x42 0x4D pair (or, started in state 1, through a lone 0x4D
whose 0x42 was consumed before the call). -/
theorem seekHeader_sound (bs : List Nat) : ∀ (st : Nat) (rest : List Nat),
    seekHeader st bs = some rest →
    (st = 1 ∧ bs = 0x4D :: rest) ∨ ∃ q, bs = q ++ 0x42 :: 0x4D :: rest := by
  induction bs with
  | nil => intro st rest h; simp [seekHeader] at h
  | cons b t ih =>
    intro st rest h
    simp only [seekHeader] at h
    by_cases h1 : st = 0 ∧ b = 0x42
    · rw [if_pos h1] at h
      rcases ih 1 rest h with ⟨_, ht⟩ | ⟨q, hq⟩
      · exact Or.inr ⟨[], by simp [h1.2, ht]⟩
      · exact Or.inr ⟨b :: q, by simp [hq]⟩
    · rw [if_neg h1] at h
      by_cases h2 : st = 1 ∧ b = 0x4D
      · rw [if_pos h2] at h
        refine Or.inl ⟨h2.1, ?_⟩
        rw [h2.2]
        simpa using h
      · rw [if_neg h2] at h
        rcases ih 0 rest h with ⟨h01, _⟩ | ⟨q, hq⟩
        · omega
        · exact Or.inr ⟨b :: q, by simp [hq]⟩

/-- Completeness of the header scan on a stream whose garbage contains
no 0x42: the scan matches at the first consecutive pair. -/
theorem seekHeader_clean (rest : List Nat) : ∀ (gs : List Nat), 0x42 ∉ gs →
    seekHeader 0 (gs ++ 0x42 :: 0x4D :: rest) = some rest := by
  intro gs
  induction gs with
  | nil => intro _; simp [seekHeader]
  | cons a t ih =>
    intro hmem
    have ha : ¬(a = 0x42) := fun hh => hmem (by simp [hh])
    have ht : 0x42 ∉ t := fun hh => hmem (List.mem_cons_of_mem a hh)
    simp only [List.cons_append, seekHeader]
    rw [if_neg (by simp [ha]), if_neg (by simp)]
    exact ih ht

/-- C5 (amended): the scanner leaves seeking only at a consecutive
0x42 0x4D pair, and when the preceding garbage contains no 0x42 this is
the first such pair; however an out-of-order byte resets the scan AND is
itself consumed without re-examination, so a repeated first marker (as
in 0x42 0x42 0x4D) does not produce a header match at the embedded
consecutive pair. -/
theorem c5_seek_resync (bs rest gs rest2 : List Nat) (b : Nat) (rest3 : List Nat)
    (h1 : seekHeader 0 bs = some rest) (h2 : 0x42 ∉ gs) (h3 : b ≠ 0x4D) :
    (∃ q, bs = q ++ 0x42 :: 0x4D :: rest)
    ∧ seekHeader 0 (gs ++ 0x42 :: 0x4D :: rest2) = some rest2
    ∧ seekHeader 1 (b :: rest3) = seekHeader 0 rest3 := by
  refine ⟨?_, seekHeader_clean rest2 gs h2, ?_⟩
  · rcases seekHeader_sound bs 0 rest h1 with ⟨h01, _⟩ | hq
    · omega
    · exact hq
  · simp [seekHeader, h3]

/-- C5 counterexample: the stream 0x42 0x42 0x4D contains the two marker
bytes consecutively in order starting at its second byte, yet the scan
finds no header, refuting the claim that a repeated first marker still
yields a match at the first consecutive pair. -/
theorem c5_seek_counterexample :
    seekHeader 0 (0x42 :: 0x42 :: 0x4D :: []) = none
    ∧ (0x42 :: 0x42 :: 0x4D :: [] : List Nat) = [0x42] ++ 0x42 :: 0x4D :: [] := by
  exact ⟨by decide, by decide⟩

/-- C5 witness: a concrete garbage byte before a clean pair, and a
concrete out-of-order byte (0x42 itself) consumed by the reset. -/
theorem c5_seek_resync_witness :
    seekHeader 0 ([0x41, 0x42, 0x4D, 9] : List Nat) = some [9]
    ∧ (0x42 ∉ ([0x41, 7] : List Nat))
    ∧ (0x42 : Nat) ≠ 0x4D
    ∧ seekHeader 0 (([0x41, 7] : List Nat) ++ 0x42 :: 0x4D :: [5]) = some [5]
    ∧ seekHeader 1 (0x42 :: [1, 2]) = seekHeader 0 [1, 2] := by
  have h := c5_seek_resync [0x41, 0x42, 0x4D, 9] [9] [0x41, 7] [5] 0x42 [1, 2]
    (by decide) (by decide) (by decide)
  exact ⟨by decide, by decide, by decide, h.2.1, h.2.2⟩

/-- C6: every byte-for-byte correct frame (markers, big-endian length
in bounds, matching running-sum checksum) decodes to a valid sample
whose six fields are the big-endian 16 bit values at body offsets 0
through 11, in order cf1 then atm, with the capture time stamped. -/
theorem c6_frame_decode (now l1 l2 : Nat) (body : List Nat)
    (_hl1 : l1 < 256) (_hl2 : l2 < 256) (_hb : allBytes body = true)
    (hlen : body.length = 256 * l1 + l2)
    (h28 : 28 ≤ 256 * l1 + l2) (h64 : 256 * l1 + l2 ≤ 64)
    (hchk : (0x42 + 0x4D + l1 + l2 + (body.take (256 * l1 + l2 - 2)).sum) % 65536
        = 256 * body.getD (256 * l1 + l2 - 2) 0 + body.getD (256 * l1 + l2 - 1) 0) :
    readPMS5003Frame now (0x42 :: 0x4D :: l1 :: l2 :: body) = some
      { pm1_cf1 := 256 * body.getD 0 0 + body.getD 1 0,
        pm25_cf1 := 256 * body.getD 2 0 + body.getD 3 0,
        pm10_cf1 := 256 * body.getD 4 0 + body.getD 5 0,
        pm1_atm := 256 * body.getD 6 0 + body.getD 7 0,
        pm25_atm := 256 * body.getD 8 0 + body.getD 9 0,
        pm10_atm := 256 * body.getD 10 0 + body.getD 11 0,
        ts_ms := now, valid := true } := by
  have hseek : seekHeader 0 (0x42 :: 0x4D :: l1 :: l2 :: body)
      = some (l1 :: l2 :: body) := by
    simp [seekHeader]
  have htake : body.take (256 * l1 + l2) = body := by
    rw [← hlen]
    exact List.take_length body
  unfold readPMS5003Frame
  rw [hseek]
  simp only
  rw [if_neg (by omega : ¬(256 * l1 + l2 < 28 ∨ 64 < 256 * l1 + l2))]
  rw [if_neg (by omega : ¬(64 < 256 * l1 + l2))]
  rw [if_neg (by omega : ¬(body.length < 256 * l1 + l2))]
  rw [htake]
  rw [if_neg (by simpa using hchk)]
  simp [pmsWord]

/-- C6 witness: a concrete correct frame of length 28 whose six fields
decode to 1 through 6. -/
theorem c6_frame_decode_witness :
    (0 : Nat) < 256
    ∧ (28 : Nat) < 256
    ∧ allBytes ([0, 1, 0, 2, 0, 3, 0, 4, 0, 5, 0, 6]
        ++ List.replicate 14 0 ++ [0, 192]) = true
    ∧ (([0, 1, 0, 2, 0, 3, 0, 4, 0, 5, 0, 6]
        ++ List.replicate 14 0 ++ [0, 192] : List Nat)).length = 256 * 0 + 28
    ∧ 28 ≤ 256 * 0 + 28 ∧ 256 * 0 + 28 ≤ 64
    ∧ readPMS5003Frame 5
        (0x42 :: 0x4D :: 0 :: 28 :: ([0, 1, 0, 2, 0, 3, 0, 4, 0, 5, 0, 6]
          ++ List.replicate 14 0 ++ [0, 192]))
        = some ⟨1, 2, 3, 4, 5, 6, 5, true⟩ := by
  refine ⟨by decide, by decide, by decide, by decide, by decide, by decide, ?_⟩
  exact (c6_frame_decode 5 0 28
    ([0, 1, 0, 2, 0, 3, 0, 4, 0, 5, 0, 6] ++ List.replicate 14 0 ++ [0, 192])
    (by decide) (by decide) (by decide) (by decide) (by decide) (by decide)
    (by decide)).trans (by decide)

/-- Wrapping subtraction of a timestamp from a later one k ticks ahead. -/
theorem u32sub_add_self (a k : Nat) : u32sub (a + k) a = k % U32 := by
  unfold u32sub U32
  omega

/-- Wrapping subtraction of a timestamp from itself is zero. -/
theorem u32sub_self (a : Nat) : u32sub a a = 0 := by
  unfold u32sub U32
  omega

/-- Wrapping subtraction agrees with plain subtraction below the wrap. -/
theorem u32sub_of_le (a b : Nat) (h1 : b ≤ a) (h2 : a < U32) : u32sub a b = a - b := by
  unfold u32sub U32
  unfold U32 at h2
  omega

/-- One failing station cycle taken when due: the attempt time advances
and the backoff grows by 5000 capped at 60000. -/
theorem ensureStaConnected_fail_step (s : StaState) (h : s.staBackoffMs ≤ 60000) :
    ensureStaConnected (s.lastStaAttempt + 60000) true false s
      = { lastStaAttempt := s.lastStaAttempt + 60000,
          staBackoffMs := min (s.staBackoffMs + 5000) 60000 } := by
  unfold ensureStaConnected
  rw [u32sub_add_self]
  have h6 : (60000 : Nat) % U32 = 60000 := by unfold U32; omega
  rw [h6]
  simp
  omega

/-- Backoff value after N failing station cycles. -/
theorem staFailRun_backoff : ∀ (N : Nat) (s : StaState), s.staBackoffMs ≤ 60000 →
    (staFailRun N s).staBackoffMs = min (s.staBackoffMs + 5000 * N) 60000 := by
  intro N
  induction N with
  | zero =>
    intro s h
    simp only [staFailRun]
    omega
  | succ n ih =>
    intro s h
    simp only [staFailRun]
    rw [ensureStaConnected_fail_step s h]
    rw [ih _ (by show min (s.staBackoffMs + 5000) 60000 ≤ 60000; omega)]
    simp only
    omega

/-- One failing broker cycle taken when due: the backoff grows by 5000
capped at 60000 and the client stays disconnected. -/
theorem mqttEnsureConnected_fail_step (s : MqttConnState)
    (hc : s.connected = false) (h : s.mqttBackoffMs ≤ 60000) :
    mqttEnsureConnected (s.lastMqttConnAttempt + 60000) true false s
      = { lastMqttConnAttempt := s.lastMqttConnAttempt + 60000,
          mqttBackoffMs := min (s.mqttBackoffMs + 5000) 60000, connected := false } := by
  unfold mqttEnsureConnected
  rw [u32sub_add_self]
  have h6 : (60000 : Nat) % U32 = 60000 := by unfold U32; omega
  rw [h6]
  simp [hc]
  omega

/-- Backoff value after N failing broker cycles; the client remains
disconnected throughout. -/
theorem mqttFailRun_backoff : ∀ (N : Nat) (s : MqttConnState),
    s.connected = false → s.mqttBackoffMs ≤ 60000 →
    (mqttFailRun N s).mqttBackoffMs = min (s.mqttBackoffMs + 5000 * N) 60000
    ∧ (mqttFailRun N s).connected = false := by
  intro N
  induction N with
  | zero =>
    intro s hc h
    simp only [mqttFailRun]
    exact ⟨by omega, hc⟩
  | succ n ih =>
    intro s hc h
    simp only [mqttFailRun]
    rw [mqttEnsureConnected_fail_step s hc h]
    have hstep := ih
      { lastMqttConnAttempt := s.lastMqttConnAttempt + 60000,
        mqttBackoffMs := min (s.mqttBackoffMs + 5000) 60000,
        connected := false }
      rfl (by show min (s.mqttBackoffMs + 5000) 60000 ≤ 60000; omega)
    refine ⟨?_, hstep.2⟩
    rw [hstep.1]
    simp only
    omega

/-- C1 (amended): starting from backoff 0, N consecutive failed broker
cycles leave the broker backoff at min(5000 N, 60000) and on an observed
successful connect the broker backoff resets to 0, so that after the
connection later drops an is-attempt-due check at the same instant
returns true. The station supervisor shares the backoff growth law
min(5000 N, 60000) — its backoff advances on every attempt — but an
observed successful join leaves its state, backoff included, completely
unchanged: the station backoff is never reset inside the supervisor. -/
theorem c1_connection_backoff (N t now : Nat) (s : MqttConnState) (s2 : StaState)
    (hc : s.connected = false)
    (hdue : mqttAttemptDue now true s = true) :
    (mqttFailRun N
        { lastMqttConnAttempt := t, mqttBackoffMs := 0,
          connected := false }).mqttBackoffMs = min (5000 * N) 60000
    ∧ (mqttEnsureConnected now true true s).mqttBackoffMs = 0
    ∧ (mqttEnsureConnected now true true s).connected = true
    ∧ mqttAttemptDue now true
        { lastMqttConnAttempt := now, mqttBackoffMs := 0, connected := false } = true
    ∧ (staFailRun N { lastStaAttempt := t, staBackoffMs := 0 }).staBackoffMs
        = min (5000 * N) 60000
    ∧ ensureStaConnected now true true s2 = s2 := by
  have hgrow := (mqttFailRun_backoff N
    { lastMqttConnAttempt := t, mqttBackoffMs := 0, connected := false }
    rfl (by show (0 : Nat) ≤ 60000; omega)).1
  have hgrow2 := staFailRun_backoff N { lastStaAttempt := t, staBackoffMs := 0 }
    (by show (0 : Nat) ≤ 60000; omega)
  have hdue' : ¬(u32sub now s.lastMqttConnAttempt < s.mqttBackoffMs) := by
    simp only [mqttAttemptDue, Bool.and_eq_true, Bool.not_eq_true',
      decide_eq_false_iff_not] at hdue
    exact hdue.2
  have hsucc : mqttEnsureConnected now true true s
      = { lastMqttConnAttempt := now, mqttBackoffMs := 0, connected := true } := by
    unfold mqttEnsureConnected
    rw [if_neg (by decide), if_neg (by rw [hc]; decide), if_neg hdue', if_pos rfl]
  refine ⟨?_, ?_, ?_, ?_, ?_, ?_⟩
  · rw [hgrow]; simp only; omega
  · rw [hsucc]
  · rw [hsucc]
  · simp [mqttAttemptDue, u32sub_self]
  · rw [hgrow2]; simp only; omega
  · unfold ensureStaConnected
    rw [if_pos (by decide)]

/-- C1 counterexample: for the station supervisor the claim fails. One
failed attempt at time 0 sets the backoff to 5000; the join then comes
up and is observed connected at time 100, after which the supervisor
leaves the backoff at 5000 rather than 0, and once the connection drops
an is-attempt-due check at the same instant returns false instead of
true. -/
theorem c1_sta_no_reset_counterexample :
    (ensureStaConnected 100 true true
        (ensureStaConnected 0 true false
          { lastStaAttempt := 0, staBackoffMs := 0 })).staBackoffMs = 5000
    ∧ staAttemptDue 100 true false
        (ensureStaConnected 100 true true
          (ensureStaConnected 0 true false
            { lastStaAttempt := 0, staBackoffMs := 0 })) = false := by
  refine ⟨?_, ?_⟩ <;> decide

/-- C1 witness: thirteen failed broker cycles from backoff zero, a
successful connect, and an untouched station state at a success. -/
theorem c1_connection_backoff_witness :
    ({ lastMqttConnAttempt := 0, mqttBackoffMs := 0,
        connected := false } : MqttConnState).connected = false
    ∧ mqttAttemptDue 123 true
        { lastMqttConnAttempt := 0, mqttBackoffMs := 0, connected := false } = true
    ∧ (mqttFailRun 13
        { lastMqttConnAttempt := 7, mqttBackoffMs := 0,
          connected := false }).mqttBackoffMs = min (5000 * 13) 60000
    ∧ (mqttEnsureConnected 123 true true
        { lastMqttConnAttempt := 0, mqttBackoffMs := 0, connected := false }).mqttBackoffMs = 0
    ∧ ensureStaConnected 123 true true { lastStaAttempt := 5, staBackoffMs := 7 }
        = { lastStaAttempt := 5, staBackoffMs := 7 } := by
  have h := c1_connection_backoff 13 7 123
    { lastMqttConnAttempt := 0, mqttBackoffMs := 0, connected := false }
    { lastStaAttempt := 5, staBackoffMs := 7 } rfl (by decide)
  exact ⟨rfl, by decide, h.1, h.2.1, h.2.2.2.2.2⟩

/-- Monotone time sequences stay monotone from an earlier origin. -/
theorem timesMono_weaken (p q : Nat) (l : List (Nat × PMSData)) (hpq : p ≤ q)
    (h : timesMono q l = true) : timesMono p l = true := by
  cases l with
  | nil => simp [timesMono]
  | cons a t =>
    obtain ⟨t1, pms⟩ := a
    simp only [timesMono, Bool.and_eq_true, decide_eq_true_eq] at h ⊢
    exact ⟨⟨le_trans hpq h.1.1, h.1.2⟩, h.2⟩

/-- Invariant of a publish call sequence with the broker connected:
emissions are at least 20000 ms apart (the first at least 20000 ms after
the initial lastMqttPub), and every emission carries the atmospheric
fields of the sample current at its call, which is valid. -/
theorem mqttPubRun_spec (cfg : ESPConfig) (steps : List (Nat × PMSData)) : ∀ (lp : Nat),
    lp < U32 → timesMono lp steps = true →
    gapped lp (mqttPubRun cfg true lp steps) = true
    ∧ ∀ e ∈ mqttPubRun cfg true lp steps,
        ∃ st ∈ steps, e.1 = st.1 ∧ e.2 = atmOf st.2 ∧ st.2.valid = true := by
  induction steps with
  | nil =>
    intro lp _ _
    simp [mqttPubRun, gapped]
  | cons a rest ih =>
    obtain ⟨t, pms⟩ := a
    intro lp hlp hm
    simp only [timesMono, Bool.and_eq_true, decide_eq_true_eq] at hm
    obtain ⟨⟨hlpt, htU⟩, hrest⟩ := hm
    by_cases hg : (!haveMqttCreds cfg || !true || !pms.valid) = true
    · have hr : mqttMaybePublish cfg true pms t lp = (none, lp) := by
        unfold mqttMaybePublish
        rw [if_pos hg]
      have hrun : mqttPubRun cfg true lp ((t, pms) :: rest)
          = mqttPubRun cfg true lp rest := by
        simp only [mqttPubRun, hr]
      rw [hrun]
      obtain ⟨g1, g2⟩ := ih lp hlp (timesMono_weaken lp t rest hlpt hrest)
      refine ⟨g1, ?_⟩
      intro e he
      obtain ⟨st, hst, h1, h2, h3⟩ := g2 e he
      exact ⟨st, List.mem_cons_of_mem _ hst, h1, h2, h3⟩
    · by_cases ht : u32sub t lp < 20000
      · have hr : mqttMaybePublish cfg true pms t lp = (none, lp) := by
          unfold mqttMaybePublish
          rw [if_neg hg, if_pos ht]
        have hrun : mqttPubRun cfg true lp ((t, pms) :: rest)
            = mqttPubRun cfg true lp rest := by
          simp only [mqttPubRun, hr]
        rw [hrun]
        obtain ⟨g1, g2⟩ := ih lp hlp (timesMono_weaken lp t rest hlpt hrest)
        refine ⟨g1, ?_⟩
        intro e he
        obtain ⟨st, hst, h1, h2, h3⟩ := g2 e he
        exact ⟨st, List.mem_cons_of_mem _ hst, h1, h2, h3⟩
      · have hvalid : pms.valid = true := by
          cases hvb : pms.valid
          · exact absurd (by simp [hvb]) hg
          · rfl
        have hr : mqttMaybePublish cfg true pms t lp = (some (atmOf pms), t) := by
          unfold mqttMaybePublish
          rw [if_neg hg, if_neg ht]
        have hrun : mqttPubRun cfg true lp ((t, pms) :: rest)
            = (t, atmOf pms) :: mqttPubRun cfg true t rest := by
          simp only [mqttPubRun, hr]
        rw [hrun]
        rw [u32sub_of_le t lp hlpt htU] at ht
        obtain ⟨g1, g2⟩ := ih t htU hrest
        constructor
        · simp only [gapped, Bool.and_eq_true, decide_eq_true_eq]
          exact ⟨by omega, g1⟩
        · intro e he
          rcases List.mem_cons.mp he with he1 | he2
          · exact ⟨(t, pms), List.mem_cons_self _ _, by rw [he1], by rw [he1], hvalid⟩
          · obtain ⟨st, hst, h1, h2, h3⟩ := g2 e he2
            exact ⟨st, List.mem_cons_of_mem _ hst, h1, h2, h3⟩

/-- C3: the publish gate emits nothing when the sample is invalid, the
broker is disconnected, or the success flag is unset; and over any
monotone sequence of calls with the broker connected, emissions are at
least one publish interval (20000 ms) apart and each carries the
atmospheric fields of the sample current at that call. -/
theorem c3_publish_gate (cfg : ESPConfig) (conn : Bool) (pms : PMSData)
    (now lp lp0 : Nat) (steps : List (Nat × PMSData))
    (hgate : pms.valid = false ∨ conn = false ∨ cfg.registration_ok ≠ 1)
    (hlp : lp0 < U32) (hmono : timesMono lp0 steps = true) :
    (mqttMaybePublish cfg conn pms now lp).1 = none
    ∧ gapped lp0 (mqttPubRun cfg true lp0 steps) = true
    ∧ ∀ e ∈ mqttPubRun cfg true lp0 steps,
        ∃ st ∈ steps, e.1 = st.1 ∧ e.2 = atmOf st.2 ∧ st.2.valid = true := by
  obtain ⟨g1, g2⟩ := mqttPubRun_spec cfg steps lp0 hlp hmono
  refine ⟨?_, g1, g2⟩
  rcases hgate with h | h | h
  · unfold mqttMaybePublish
    rw [if_pos (by simp [h])]
  · unfold mqttMaybePublish
    rw [if_pos (by simp [h])]
  · have hbeq : (cfg.registration_ok == 1) = false := by
      simpa using h
    have hcf : haveMqttCreds cfg = false := by
      unfold haveMqttCreds
      rw [hbeq]
      simp
    unfold mqttMaybePublish
    rw [if_pos (by simp [hcf])]

/-- C3 witness: with the broker disconnected nothing is emitted for a
valid sample; with it connected, calls at 20000, 25000 and 40001 ms with
fresh valid samples emit exactly at 20000 and 40001 ms, one interval
apart. -/
theorem c3_publish_gate_witness :
    ((⟨1, 2, 3, 4, 5, 6, 0, true⟩ : PMSData).valid = false ∨ false = false
      ∨ ({ zeroConfig with registration_ok := 1, node_id := [65], mqtt_host := [66], mqtt_port := 1883, mqtt_username := [67], mqtt_password := [68] } : ESPConfig).registration_ok ≠ 1)
    ∧ (0 : Nat) < U32
    ∧ timesMono 0
        [(20000, ⟨1, 2, 3, 4, 5, 6, 0, true⟩), (25000, ⟨1, 2, 3, 7, 8, 9, 0, true⟩),
          (40001, ⟨9, 9, 9, 10, 11, 12, 0, true⟩)] = true
    ∧ (mqttMaybePublish
        { zeroConfig with registration_ok := 1, node_id := [65], mqtt_host := [66], mqtt_port := 1883, mqtt_username := [67], mqtt_password := [68] }
        false ⟨1, 2, 3, 4, 5, 6, 0, true⟩ 0 0).1 = none
    ∧ gapped 0 (mqttPubRun
        { zeroConfig with registration_ok := 1, node_id := [65], mqtt_host := [66], mqtt_port := 1883, mqtt_username := [67], mqtt_password := [68] }
        true 0
        [(20000, ⟨1, 2, 3, 4, 5, 6, 0, true⟩), (25000, ⟨1, 2, 3, 7, 8, 9, 0, true⟩),
          (40001, ⟨9, 9, 9, 10, 11, 12, 0, true⟩)]) = true := by
  have h := c3_publish_gate
    { zeroConfig with registration_ok := 1, node_id := [65], mqtt_host := [66], mqtt_port := 1883, mqtt_username := [67], mqtt_password := [68] }
    false ⟨1, 2, 3, 4, 5, 6, 0, true⟩ 0 0 0
    [(20000, ⟨1, 2, 3, 4, 5, 6, 0, true⟩), (25000, ⟨1, 2, 3, 7, 8, 9, 0, true⟩),
      (40001, ⟨9, 9, 9, 10, 11, 12, 0, true⟩)]
    (by decide) (by decide) (by decide)
  exact ⟨by decide, by decide, by decide, h.1, h.2.1⟩
